import Mathlib

/-!
CPCtelera animation example, `examples/advanced/animation/src/main.c`

A shallow embedding of `main.c` (the keyboard classifier `updateUser` and the
main loop) together with theorems about the request priority, the calls that
are issued per loop iteration and the frame index of the animated entity.

Conventions of the embedding.

* A C function that works on `TEntity*` becomes a function that takes the
  entity and returns the new entity together with the list of external calls
  it made, in program order (`List Call`).
* The snapshot that `cpct_scanKeyboardFast` leaves in the keyboard status
  buffer is an argument (`KeyboardStatus`); `cpct_isKeyPressed` reads it.
* `while(1)` runs once per element of a list of snapshots: the length of the
  list is the number of iterations observed.
* The functions declared in `entities.h` (`getPersea`, `setAnimation`,
  `updateEntity`, `drawEntity`) have no body in `main.c`.  `main.c` is embedded
  over an arbitrary implementation of them (`EntityModule`); the namespace
  `Entities` holds the implementation described by the specification.
-/

namespace Animation

/-! ## Types used by `main.c` -/

/-- Key identifiers of `cpctelera.h` that `main.c` names, plus every other key of
the keyboard matrix (`Key_other`). -/
inductive cpct_keyID where
  | Key_Space
  | Key_CursorUp
  | Key_CursorDown
  | Key_CursorRight
  | Key_CursorLeft
  | Key_1
  | Key_2
  | Key_other (code : Nat)
  deriving DecidableEq, Repr

/-- Entity statuses of `entities.h`: the closed set of animation variants. -/
inductive TEntityStatus where
  | es_stop
  | es_hit
  | es_kick
  | es_fist
  | es_walk_right
  | es_walk_left
  | es_dead
  | es_win
  deriving DecidableEq, Repr

/-- The animated entity: position on the display, current animation and index of
the current frame in the frame sequence of that animation. -/
structure TEntity where
  x : Int
  y : Int
  currentAnimation : TEntityStatus
  frameIndex : Nat
  deriving DecidableEq, Repr

/-- Contents of the keyboard status buffer after a scan: which keys are down. -/
abbrev KeyboardStatus := cpct_keyID → Bool

/-- External calls made by `main.c`, with the arguments that matter. -/
inductive Call where
  | cpct_disableFirmware
  | cpct_fw2hw (size : Nat)
  | cpct_setPalette (size : Nat)
  | cpct_setVideoMode (mode : Nat)
  | cpct_drawSolidBox (memory colour width height : Nat)
  | cpct_drawSprite (memory width height : Nat)
  | getPersea
  | cpct_scanKeyboardFast
  | setAnimation (newstatus : TEntityStatus)
  | cpct_waitVSYNC
  | updateEntity (ent : TEntity)
  | drawEntity (ent : TEntity)
  deriving DecidableEq, Repr

/-- The functions of `entities.h` that `main.c` calls, as functions on the entity. -/
structure EntityModule where
  getPersea : TEntity
  setAnimation : TEntity → TEntityStatus → TEntity
  updateEntity : TEntity → TEntity
  drawEntity : TEntity → TEntity

open cpct_keyID TEntityStatus

/-! ## `main.c` -/

/-- Reads one key from the keyboard status buffer (`cpct_isKeyPressed`). -/
def cpct_isKeyPressed (keys : KeyboardStatus) (key : cpct_keyID) : Bool :=
  keys key

/-- The calls of `initializeCPC` (lines 28-51). -/
def initializeCPC : List Call :=
  [ Call.cpct_disableFirmware,
    Call.cpct_fw2hw 16,
    Call.cpct_setPalette 16,
    Call.cpct_setVideoMode 0,
    Call.cpct_drawSolidBox 0xC000 0xCC 40 60,
    Call.cpct_drawSolidBox 0xC028 0xCC 40 60,
    Call.cpct_drawSprite 0xC0FC 55 20,
    Call.cpct_drawSolidBox 0xC3C0 0xFF 40 8,
    Call.cpct_drawSolidBox 0xC3E8 0xFF 40 8,
    Call.cpct_drawSolidBox 0xC410 0xCC 40 96,
    Call.cpct_drawSolidBox 0xC438 0xCC 40 96 ]

/-- Final value of the local variable `animrequest` of `updateUser` (lines 58-70):
initialised to `es_stop`, then set by the first branch of the `if / else if`
chain whose key is pressed. -/
def animrequest (keys : KeyboardStatus) : TEntityStatus :=
  if cpct_isKeyPressed keys Key_Space then es_hit
  else if cpct_isKeyPressed keys Key_CursorUp then es_kick
  else if cpct_isKeyPressed keys Key_CursorDown then es_fist
  else if cpct_isKeyPressed keys Key_CursorRight then es_walk_right
  else if cpct_isKeyPressed keys Key_CursorLeft then es_walk_left
  else if cpct_isKeyPressed keys Key_1 then es_dead
  else if cpct_isKeyPressed keys Key_2 then es_win
  else es_stop

/-- Embedding of `updateUser` (lines 56-75): scan the keyboard, compute `animrequest`, and
call `setAnimation` when the request is not `es_stop`. -/
def updateUser (E : EntityModule) (keys : KeyboardStatus) (user : TEntity) :
    TEntity × List Call :=
  if animrequest keys ≠ es_stop then
    (E.setAnimation user (animrequest keys),
      [Call.cpct_scanKeyboardFast, Call.setAnimation (animrequest keys)])
  else
    (user, [Call.cpct_scanKeyboardFast])

/-- One iteration of the main loop (lines 89-92). -/
def loopBody (E : EntityModule) (keys : KeyboardStatus) (persea : TEntity) :
    TEntity × List Call :=
  let u := updateUser E keys persea
  let a := E.updateEntity u.1
  let d := E.drawEntity a
  (d, u.2 ++ [Call.cpct_waitVSYNC, Call.updateEntity u.1, Call.drawEntity a])

/-- The main loop `while(1)` (lines 88-93), one iteration per keyboard snapshot. -/
def mainLoop (E : EntityModule) : List KeyboardStatus → TEntity → TEntity × List Call
  | [], persea => (persea, [])
  | keys :: rest, persea =>
    let b := loopBody E keys persea
    let r := mainLoop E rest b.1
    (r.1, b.2 ++ r.2)

/-- Embedding of `main` (lines 80-94) observed for as many iterations as there are snapshots. -/
def main (E : EntityModule) (snapshots : List KeyboardStatus) : TEntity × List Call :=
  let r := mainLoop E snapshots E.getPersea
  (r.1, initializeCPC ++ Call.getPersea :: r.2)

/-! ## `entities.h` as the specification describes it -/

/-- Static animation data: per variant the number of frames, whether the animation
loops, and the successor of a one-shot animation. -/
structure AnimationDefinition where
  frameCount : TEntityStatus → Nat
  looping : TEntityStatus → Bool
  successor : TEntityStatus → TEntityStatus

namespace Entities

/-- Modelled from the spec: the body of `getPersea` is missing.  The entity is
created once with `currentAnimation = stop` and `frameIndex = 0` (section 3,
lifecycle); its position is not fixed by the specification. -/
def getPersea (x y : Int) : TEntity :=
  { x := x, y := y, currentAnimation := es_stop, frameIndex := 0 }

/-- Modelled from the spec: the body of `setAnimation` is missing.  Section 4.2:
a request that differs from the current animation sets
`currentAnimation := request`, `frameIndex := 0`; a request equal to the current
animation resets nothing. -/
def setAnimation (ent : TEntity) (newstatus : TEntityStatus) : TEntity :=
  if newstatus ≠ ent.currentAnimation then
    { ent with currentAnimation := newstatus, frameIndex := 0 }
  else ent

/-- Modelled from the spec: the body of `updateEntity` is missing.  Section 4.3:
looping animations step `frameIndex` modulo `frameCount`; one-shot animations
increment `frameIndex` and, when it reaches `frameCount`, move to the successor
variant with `frameIndex := 0`. -/
def updateEntity (A : AnimationDefinition) (ent : TEntity) : TEntity :=
  if A.looping ent.currentAnimation then
    { ent with frameIndex := (ent.frameIndex + 1) % A.frameCount ent.currentAnimation }
  else if ent.frameIndex + 1 = A.frameCount ent.currentAnimation then
    { ent with currentAnimation := A.successor ent.currentAnimation, frameIndex := 0 }
  else
    { ent with frameIndex := ent.frameIndex + 1 }

/-- Modelled from the spec: the body of `drawEntity` is missing.  Section 4.4: the
renderer reads position, animation and frame index and blits; the entity state
is not changed. -/
def drawEntity (ent : TEntity) : TEntity := ent

/-- The specification's implementation of `entities.h`. -/
def implementation (A : AnimationDefinition) (x y : Int) : EntityModule :=
  { getPersea := getPersea x y,
    setAnimation := setAnimation,
    updateEntity := updateEntity A,
    drawEntity := drawEntity }

/-- Example animation data with the frame counts used in section 8 of the
specification: `walk_left` loops over 4 frames, `hit` is a one-shot of 3 frames
with successor `stop`. -/
def sampleDefinition : AnimationDefinition :=
  { frameCount := fun s =>
      match s with
      | es_stop => 1
      | es_walk_left => 4
      | es_walk_right => 4
      | _ => 3,
    looping := fun s =>
      match s with
      | es_stop => true
      | es_walk_left => true
      | es_walk_right => true
      | _ => false,
    successor := fun _ => es_stop }

end Entities

/-! ## Vocabulary of the statements -/

/-- The priority list of section 4.1, in the words of the specification:
Space -> hit, CursorUp -> kick, CursorDown -> fist, CursorRight -> walk_right,
CursorLeft -> walk_left, 1 -> dead, 2 -> win. -/
def priorityList : List (cpct_keyID × TEntityStatus) :=
  [ (Key_Space, es_hit), (Key_CursorUp, es_kick), (Key_CursorDown, es_fist),
    (Key_CursorRight, es_walk_right), (Key_CursorLeft, es_walk_left),
    (Key_1, es_dead), (Key_2, es_win) ]

/-- First match of the specification: the variant of the first listed key that is
pressed, or `none` ("no request"). -/
def firstMatch (keys : KeyboardStatus) : Option TEntityStatus :=
  (priorityList.find? (fun p => keys p.1)).map Prod.snd

/-- The seven keys that `updateUser` examines. -/
def listedKeys : List cpct_keyID :=
  [Key_Space, Key_CursorUp, Key_CursorDown, Key_CursorRight, Key_CursorLeft, Key_1, Key_2]

/-- Recognises a call of `setAnimation`. -/
def isSetAnimation : Call → Bool
  | Call.setAnimation _ => true
  | _ => false

/-- Recognises a call of `updateEntity`. -/
def isUpdateEntity : Call → Bool
  | Call.updateEntity _ => true
  | _ => false

/-- Recognises a call of `drawEntity`. -/
def isDrawEntity : Call → Bool
  | Call.drawEntity _ => true
  | _ => false

/-- Recognises the vertical-sync wait. -/
def isWaitVSYNC : Call → Bool
  | Call.cpct_waitVSYNC => true
  | _ => false

/-- A keyboard snapshot in which exactly the keys of the list are down. -/
def pressed (down : List cpct_keyID) : KeyboardStatus :=
  fun k => decide (k ∈ down)

/-- The calls of one turn contain a vertical-sync wait that has a call of a phase
(any call other than the wait) before it and a call of a phase after it. -/
def suspendedBetweenPhases (turn : List Call) : Prop :=
  ∃ before after, turn = before ++ Call.cpct_waitVSYNC :: after ∧
    (∃ c ∈ before, isWaitVSYNC c = false) ∧ (∃ c ∈ after, isWaitVSYNC c = false)

/-- The frame index is inside the frame sequence of the current animation. -/
def frameInBounds (A : AnimationDefinition) (ent : TEntity) : Prop :=
  ent.frameIndex < A.frameCount ent.currentAnimation

instance (A : AnimationDefinition) (ent : TEntity) : Decidable (frameInBounds A ent) :=
  inferInstanceAs (Decidable (ent.frameIndex < A.frameCount ent.currentAnimation))

/-! ## Lemmas shared by the theorems -/

theorem animrequest_eq_firstMatch (keys : KeyboardStatus) :
    animrequest keys = (firstMatch keys).getD es_stop := by
  unfold animrequest firstMatch priorityList cpct_isKeyPressed
  cases h1 : keys Key_Space <;> cases h2 : keys Key_CursorUp <;>
    cases h3 : keys Key_CursorDown <;> cases h4 : keys Key_CursorRight <;>
    cases h5 : keys Key_CursorLeft <;> cases h6 : keys Key_1 <;>
    cases h7 : keys Key_2 <;> simp [List.find?, h1, h2, h3, h4, h5, h6, h7]

theorem animrequest_of_split (keys : KeyboardStatus) (pre post : List (cpct_keyID × TEntityStatus))
    (key : cpct_keyID) (variant : TEntityStatus)
    (hsplit : priorityList = pre ++ (key, variant) :: post)
    (hpre : ∀ p ∈ pre, keys p.1 = false) (hkey : keys key = true) :
    animrequest keys = variant := by
  have hnone : pre.find? (fun p => keys p.1) = none := by
    rw [List.find?_eq_none]
    intro p hp
    simp [hpre p hp]
  rw [animrequest_eq_firstMatch]
  unfold firstMatch
  rw [hsplit, List.find?_append, hnone]
  simp [List.find?, hkey]

theorem animrequest_ne_stop_of_split (pre post : List (cpct_keyID × TEntityStatus))
    (key : cpct_keyID) (variant : TEntityStatus)
    (hsplit : priorityList = pre ++ (key, variant) :: post) : variant ≠ es_stop := by
  have hmem : (key, variant) ∈ priorityList := by
    rw [hsplit]; simp
  intro h
  subst h
  simp [priorityList] at hmem

theorem animrequest_mem (keys : KeyboardStatus) :
    animrequest keys = es_stop ∨
      animrequest keys ∈ [es_hit, es_kick, es_fist, es_walk_right, es_walk_left, es_dead, es_win] := by
  unfold animrequest
  repeat' split
  all_goals simp

theorem updateUser_calls (E : EntityModule) (keys : KeyboardStatus) (user : TEntity) :
    (updateUser E keys user).2 =
      if animrequest keys ≠ es_stop then
        [Call.cpct_scanKeyboardFast, Call.setAnimation (animrequest keys)]
      else [Call.cpct_scanKeyboardFast] := by
  unfold updateUser
  split <;> rfl

theorem setAnimation_inBounds (A : AnimationDefinition) (hA : ∀ s, 0 < A.frameCount s)
    (ent : TEntity) (newstatus : TEntityStatus) (hent : frameInBounds A ent) :
    frameInBounds A (Entities.setAnimation ent newstatus) := by
  unfold Entities.setAnimation
  split
  · exact hA newstatus
  · exact hent

theorem updateEntity_inBounds (A : AnimationDefinition) (hA : ∀ s, 0 < A.frameCount s)
    (ent : TEntity) (hent : frameInBounds A ent) :
    frameInBounds A (Entities.updateEntity A ent) := by
  unfold frameInBounds at hent
  unfold Entities.updateEntity
  split
  · exact Nat.mod_lt _ (hA ent.currentAnimation)
  · split
    · exact hA (A.successor ent.currentAnimation)
    · rename_i hne
      show ent.frameIndex + 1 < A.frameCount ent.currentAnimation
      omega

theorem updateUser_inBounds (A : AnimationDefinition) (x y : Int)
    (hA : ∀ s, 0 < A.frameCount s) (keys : KeyboardStatus) (ent : TEntity)
    (hent : frameInBounds A ent) :
    frameInBounds A (updateUser (Entities.implementation A x y) keys ent).1 := by
  unfold updateUser
  split
  · exact setAnimation_inBounds A hA ent _ hent
  · exact hent

theorem loopBody_inBounds (A : AnimationDefinition) (x y : Int)
    (hA : ∀ s, 0 < A.frameCount s) (keys : KeyboardStatus) (ent : TEntity)
    (hent : frameInBounds A ent) :
    frameInBounds A (loopBody (Entities.implementation A x y) keys ent).1 :=
  updateEntity_inBounds A hA _ (updateUser_inBounds A x y hA keys ent hent)

theorem mainLoop_inBounds (A : AnimationDefinition) (x y : Int)
    (hA : ∀ s, 0 < A.frameCount s) (snapshots : List KeyboardStatus) (ent : TEntity)
    (hent : frameInBounds A ent) :
    frameInBounds A (mainLoop (Entities.implementation A x y) snapshots ent).1 := by
  induction snapshots generalizing ent with
  | nil => exact hent
  | cons keys rest ih => exact ih _ (loopBody_inBounds A x y hA keys ent hent)

/-! ## The input classifier (`updateUser`) -/

/-- C1: the request that `updateUser` issues is the first match of the priority list
Space -> hit, CursorUp -> kick, CursorDown -> fist, CursorRight -> walk_right,
CursorLeft -> walk_left, 1 -> dead, 2 -> win.  For every position of the list:
when no key listed before it is pressed and its key is pressed, the only
`setAnimation` call carries its variant, whatever keys listed after it are
pressed. -/
theorem updateUser_priority_first_match (E : EntityModule) (keys : KeyboardStatus)
    (user : TEntity) (pre post : List (cpct_keyID × TEntityStatus))
    (key : cpct_keyID) (variant : TEntityStatus)
    (hsplit : priorityList = pre ++ (key, variant) :: post)
    (hpre : ∀ p ∈ pre, keys p.1 = false) (hkey : keys key = true) :
    animrequest keys = variant ∧
      updateUser E keys user =
        (E.setAnimation user variant, [Call.cpct_scanKeyboardFast, Call.setAnimation variant]) ∧
      (updateUser E keys user).2 =
        Call.cpct_scanKeyboardFast :: ((firstMatch keys).map Call.setAnimation).toList := by
  have hreq := animrequest_of_split keys pre post key variant hsplit hpre hkey
  have hne := animrequest_ne_stop_of_split pre post key variant hsplit
  have hfm := animrequest_eq_firstMatch keys
  refine ⟨hreq, ?_, ?_⟩
  · unfold updateUser
    rw [hreq]
    simp [hne]
  · rw [updateUser_calls, hreq]
    rw [hreq] at hfm
    cases hf : firstMatch keys with
    | none => rw [hf] at hfm; exact absurd hfm hne
    | some v =>
      rw [hf] at hfm
      simp at hfm
      subst hfm
      simp [hne]

/-- Witness for C1: Space and CursorUp (and CursorLeft) pressed together give `hit`. -/
theorem updateUser_priority_first_match_witness :
    animrequest (pressed [Key_CursorUp, Key_Space, Key_CursorLeft]) = es_hit ∧
      updateUser (Entities.implementation Entities.sampleDefinition 0 0)
          (pressed [Key_CursorUp, Key_Space, Key_CursorLeft]) (Entities.getPersea 0 0) =
        ((Entities.implementation Entities.sampleDefinition 0 0).setAnimation
            (Entities.getPersea 0 0) es_hit,
          [Call.cpct_scanKeyboardFast, Call.setAnimation es_hit]) ∧
      (updateUser (Entities.implementation Entities.sampleDefinition 0 0)
          (pressed [Key_CursorUp, Key_Space, Key_CursorLeft]) (Entities.getPersea 0 0)).2 =
        Call.cpct_scanKeyboardFast ::
          ((firstMatch (pressed [Key_CursorUp, Key_Space, Key_CursorLeft])).map
            Call.setAnimation).toList :=
  updateUser_priority_first_match (Entities.implementation Entities.sampleDefinition 0 0)
    (pressed [Key_CursorUp, Key_Space, Key_CursorLeft]) (Entities.getPersea 0 0)
    [] (priorityList.drop 1) Key_Space es_hit (by decide) (by simp) (by decide)

/-- C2: when none of the seven listed keys is pressed, `updateUser` computes no request
(`es_stop`), makes no `setAnimation` call (the keyboard scan is its only call) and
returns the entity it was given, with the same animation and frame index. -/
theorem updateUser_no_listed_key (E : EntityModule) (keys : KeyboardStatus) (user : TEntity)
    (hnone : ∀ k ∈ listedKeys, keys k = false) :
    animrequest keys = es_stop ∧
      updateUser E keys user = (user, [Call.cpct_scanKeyboardFast]) ∧
      (updateUser E keys user).2.countP isSetAnimation = 0 := by
  have hreq : animrequest keys = es_stop := by
    simp only [listedKeys, List.mem_cons, List.mem_singleton, List.not_mem_nil, or_false,
      forall_eq_or_imp, forall_eq] at hnone
    obtain ⟨h1, h2, h3, h4, h5, h6, h7⟩ := hnone
    simp [animrequest, cpct_isKeyPressed, h1, h2, h3, h4, h5, h6, h7]
  have hrun : updateUser E keys user = (user, [Call.cpct_scanKeyboardFast]) := by
    simp [updateUser, hreq]
  refine ⟨hreq, hrun, ?_⟩
  rw [hrun]
  rfl

/-- Witness for C2: only an unlisted key is down, and the entity is in the middle of an
animation. -/
theorem updateUser_no_listed_key_witness :
    animrequest (pressed [Key_other 7]) = es_stop ∧
      updateUser (Entities.implementation Entities.sampleDefinition 0 0)
          (pressed [Key_other 7]) { x := 3, y := 4, currentAnimation := es_hit, frameIndex := 2 } =
        ({ x := 3, y := 4, currentAnimation := es_hit, frameIndex := 2 },
          [Call.cpct_scanKeyboardFast]) ∧
      (updateUser (Entities.implementation Entities.sampleDefinition 0 0)
          (pressed [Key_other 7])
          { x := 3, y := 4, currentAnimation := es_hit, frameIndex := 2 }).2.countP
        isSetAnimation = 0 :=
  updateUser_no_listed_key (Entities.implementation Entities.sampleDefinition 0 0)
    (pressed [Key_other 7]) { x := 3, y := 4, currentAnimation := es_hit, frameIndex := 2 }
    (by decide)

/-- C9: `updateUser` calls `setAnimation` at most once, and two snapshots that agree on
the seven listed keys produce the same request and the same calls, whatever the
entities, the implementation of `entities.h` and the other keys are. -/
theorem updateUser_request_deterministic (E E' : EntityModule) (keys keys' : KeyboardStatus)
    (user user' : TEntity) (hagree : ∀ k ∈ listedKeys, keys k = keys' k) :
    (updateUser E keys user).2.countP isSetAnimation ≤ 1 ∧
      animrequest keys = animrequest keys' ∧
      (updateUser E keys user).2 = (updateUser E' keys' user').2 := by
  have hreq : animrequest keys = animrequest keys' := by
    simp only [listedKeys, List.mem_cons, List.mem_singleton, List.not_mem_nil, or_false,
      forall_eq_or_imp, forall_eq] at hagree
    obtain ⟨h1, h2, h3, h4, h5, h6, h7⟩ := hagree
    simp [animrequest, cpct_isKeyPressed, h1, h2, h3, h4, h5, h6, h7]
  refine ⟨?_, hreq, ?_⟩
  · rw [updateUser_calls]
    split <;> simp [List.countP_cons, isSetAnimation]
  · rw [updateUser_calls, updateUser_calls, hreq]

/-- Witness for C9: two snapshots that differ in unlisted keys only, two different
entities. -/
theorem updateUser_request_deterministic_witness :
    (updateUser (Entities.implementation Entities.sampleDefinition 0 0)
        (pressed [Key_CursorDown, Key_2, Key_other 1]) (Entities.getPersea 0 0)).2.countP
        isSetAnimation ≤ 1 ∧
      animrequest (pressed [Key_CursorDown, Key_2, Key_other 1]) =
        animrequest (pressed [Key_other 9, Key_2, Key_CursorDown]) ∧
      (updateUser (Entities.implementation Entities.sampleDefinition 0 0)
        (pressed [Key_CursorDown, Key_2, Key_other 1]) (Entities.getPersea 0 0)).2 =
      (updateUser (Entities.implementation Entities.sampleDefinition 5 5)
        (pressed [Key_other 9, Key_2, Key_CursorDown])
        { x := 1, y := 1, currentAnimation := es_fist, frameIndex := 1 }).2 :=
  updateUser_request_deterministic _ _ (pressed [Key_CursorDown, Key_2, Key_other 1])
    (pressed [Key_other 9, Key_2, Key_CursorDown]) _ _ (by decide)

/-- C10: `updateUser` never calls `setAnimation` with `es_stop`: the argument of every
`setAnimation` call it makes is one of `es_hit`, `es_kick`, `es_fist`,
`es_walk_right`, `es_walk_left`, `es_dead`, `es_win`; and with the specified
`setAnimation` an entity that is in `stop` after `updateUser` was in `stop` before. -/
theorem updateUser_never_requests_stop (E : EntityModule) (keys : KeyboardStatus)
    (user : TEntity) :
    Call.setAnimation es_stop ∉ (updateUser E keys user).2 ∧
      (∀ s, Call.setAnimation s ∈ (updateUser E keys user).2 →
        s ∈ [es_hit, es_kick, es_fist, es_walk_right, es_walk_left, es_dead, es_win]) ∧
      (∀ A x y,
        (updateUser (Entities.implementation A x y) keys user).1.currentAnimation = es_stop →
          user.currentAnimation = es_stop) := by
  have hmem := animrequest_mem keys
  refine ⟨?_, ?_, ?_⟩
  · rw [updateUser_calls]
    split
    · rename_i h
      simp only [List.mem_cons, List.mem_singleton, List.not_mem_nil, or_false, not_or]
      refine ⟨by simp, ?_⟩
      intro heq
      injection heq with heq
      exact h heq.symm
    · simp
  · intro s hs
    rw [updateUser_calls] at hs
    split at hs
    · rename_i h
      simp only [List.mem_cons, List.mem_singleton, List.not_mem_nil, or_false] at hs
      rcases hs with hs | hs
      · cases hs
      · injection hs with hs
        subst hs
        rcases hmem with hm | hm
        · exact absurd hm h
        · exact hm
    · simp at hs
  · intro A x y hstop
    unfold updateUser at hstop
    split at hstop
    · rename_i h
      simp only [Entities.implementation, Entities.setAnimation] at hstop
      split at hstop
      · simp at hstop
        exact absurd hstop h
      · exact hstop
    · exact hstop

/-- Witness for C10: with Space down the one `setAnimation` call carries `es_hit`. -/
theorem updateUser_never_requests_stop_witness :
    Call.setAnimation es_hit ∈
        (updateUser (Entities.implementation Entities.sampleDefinition 0 0)
          (pressed [Key_Space]) (Entities.getPersea 0 0)).2 ∧
      es_hit ∈ [es_hit, es_kick, es_fist, es_walk_right, es_walk_left, es_dead, es_win] :=
  ⟨by decide,
    (updateUser_never_requests_stop (Entities.implementation Entities.sampleDefinition 0 0)
      (pressed [Key_Space]) (Entities.getPersea 0 0)).2.1 es_hit (by decide)⟩

/-! ## Request application (`setAnimation` as specified) -/

/-- C3: pre-emption law.  `updateUser` forwards every request other than `es_stop` to
`setAnimation`, whatever the entity is; and with the specified `setAnimation`, a
request that differs from the current animation leaves the entity with
`currentAnimation = request` and `frameIndex = 0`, whatever the frame index was. -/
theorem preemption_law (A : AnimationDefinition) (x y : Int) (keys : KeyboardStatus)
    (user : TEntity) (hreq : animrequest keys ≠ es_stop)
    (hdiff : animrequest keys ≠ user.currentAnimation) :
    (∀ (E : EntityModule) (ent : TEntity), updateUser E keys ent =
        (E.setAnimation ent (animrequest keys),
          [Call.cpct_scanKeyboardFast, Call.setAnimation (animrequest keys)])) ∧
      (∀ (ent : TEntity) (request : TEntityStatus), request ≠ ent.currentAnimation →
        Entities.setAnimation ent request =
          { ent with currentAnimation := request, frameIndex := 0 }) ∧
      (updateUser (Entities.implementation A x y) keys user).1.currentAnimation =
        animrequest keys ∧
      (updateUser (Entities.implementation A x y) keys user).1.frameIndex = 0 := by
  have hfwd : ∀ (E : EntityModule) (ent : TEntity), updateUser E keys ent =
      (E.setAnimation ent (animrequest keys),
        [Call.cpct_scanKeyboardFast, Call.setAnimation (animrequest keys)]) := by
    intro E ent
    simp [updateUser, hreq]
  have hset : ∀ (ent : TEntity) (request : TEntityStatus), request ≠ ent.currentAnimation →
      Entities.setAnimation ent request =
        { ent with currentAnimation := request, frameIndex := 0 } := by
    intro ent request hne
    simp [Entities.setAnimation, hne]
  refine ⟨hfwd, hset, ?_, ?_⟩
  · rw [hfwd]
    show (Entities.setAnimation user (animrequest keys)).currentAnimation = _
    rw [hset user _ hdiff]
  · rw [hfwd]
    show (Entities.setAnimation user (animrequest keys)).frameIndex = _
    rw [hset user _ hdiff]

/-- Witness for C3: CursorUp pre-empts a `hit` animation that is at frame 1 of 3. -/
theorem preemption_law_witness :
    (updateUser (Entities.implementation Entities.sampleDefinition 0 0) (pressed [Key_CursorUp])
        { x := 0, y := 0, currentAnimation := es_hit, frameIndex := 1 }).1.currentAnimation =
        animrequest (pressed [Key_CursorUp]) ∧
      (updateUser (Entities.implementation Entities.sampleDefinition 0 0) (pressed [Key_CursorUp])
        { x := 0, y := 0, currentAnimation := es_hit, frameIndex := 1 }).1.frameIndex = 0 :=
  (preemption_law Entities.sampleDefinition 0 0 (pressed [Key_CursorUp])
    { x := 0, y := 0, currentAnimation := es_hit, frameIndex := 1 }
    (by decide) (by decide)).2.2

/-- C4: continuity law.  With the specified `setAnimation`, a request equal to the
current animation leaves the entity, hence its frame index, as it was; `updateUser`
still issues the `setAnimation` call for it, and the iteration of the main loop
then yields exactly the advance of the unchanged entity. -/
theorem continuity_law (A : AnimationDefinition) (x y : Int) (keys : KeyboardStatus)
    (user : TEntity) (hsame : animrequest keys = user.currentAnimation) :
    Entities.setAnimation user (animrequest keys) = user ∧
      (updateUser (Entities.implementation A x y) keys user).1.frameIndex = user.frameIndex ∧
      (updateUser (Entities.implementation A x y) keys user).1 = user ∧
      (animrequest keys ≠ es_stop →
        (updateUser (Entities.implementation A x y) keys user).2 =
          [Call.cpct_scanKeyboardFast, Call.setAnimation user.currentAnimation]) ∧
      (loopBody (Entities.implementation A x y) keys user).1 = Entities.updateEntity A user := by
  have hset : Entities.setAnimation user (animrequest keys) = user := by
    simp [Entities.setAnimation, hsame]
  have hrun : (updateUser (Entities.implementation A x y) keys user).1 = user := by
    unfold updateUser
    split
    · exact hset
    · rfl
  refine ⟨hset, by rw [hrun], hrun, ?_, ?_⟩
  · intro hne
    rw [updateUser_calls, hsame]
    rw [hsame] at hne
    simp [hne]
  · show Entities.drawEntity (Entities.updateEntity A
      (updateUser (Entities.implementation A x y) keys user).1) = _
    rw [hrun]
    rfl

/-- Witness for C4: CursorLeft held while `walk_left` is at frame 2 of 4. -/
theorem continuity_law_witness :
    (updateUser (Entities.implementation Entities.sampleDefinition 0 0) (pressed [Key_CursorLeft])
        { x := 9, y := 0, currentAnimation := es_walk_left, frameIndex := 2 }).1.frameIndex = 2 ∧
      (loopBody (Entities.implementation Entities.sampleDefinition 0 0) (pressed [Key_CursorLeft])
        { x := 9, y := 0, currentAnimation := es_walk_left, frameIndex := 2 }).1 =
        Entities.updateEntity Entities.sampleDefinition
          { x := 9, y := 0, currentAnimation := es_walk_left, frameIndex := 2 } :=
  ⟨(continuity_law Entities.sampleDefinition 0 0 (pressed [Key_CursorLeft])
      { x := 9, y := 0, currentAnimation := es_walk_left, frameIndex := 2 } (by decide)).2.1,
    (continuity_law Entities.sampleDefinition 0 0 (pressed [Key_CursorLeft])
      { x := 9, y := 0, currentAnimation := es_walk_left, frameIndex := 2 } (by decide)).2.2.2.2⟩

/-! ## The main loop -/

theorem loopBody_calls (E : EntityModule) (keys : KeyboardStatus) (ent : TEntity) :
    (loopBody E keys ent).2 =
      (updateUser E keys ent).2 ++
        [Call.cpct_waitVSYNC, Call.updateEntity (updateUser E keys ent).1,
          Call.drawEntity (E.updateEntity (updateUser E keys ent).1)] := rfl

theorem loopBody_entity (E : EntityModule) (keys : KeyboardStatus) (ent : TEntity) :
    (loopBody E keys ent).1 = E.drawEntity (E.updateEntity (updateUser E keys ent).1) := rfl

theorem updateUser_calls_cases (E : EntityModule) (keys : KeyboardStatus) (ent : TEntity) :
    (updateUser E keys ent).2 = [Call.cpct_scanKeyboardFast] ∨
      (updateUser E keys ent).2 =
        [Call.cpct_scanKeyboardFast, Call.setAnimation (animrequest keys)] := by
  rw [updateUser_calls]
  split
  · exact Or.inr rfl
  · exact Or.inl rfl

theorem mainLoop_cons (E : EntityModule) (keys : KeyboardStatus) (rest : List KeyboardStatus)
    (ent : TEntity) :
    mainLoop E (keys :: rest) ent =
      ((mainLoop E rest (loopBody E keys ent).1).1,
        (loopBody E keys ent).2 ++ (mainLoop E rest (loopBody E keys ent).1).2) := rfl

theorem mainLoop_append (E : EntityModule) (pre post : List KeyboardStatus) (ent : TEntity) :
    mainLoop E (pre ++ post) ent =
      ((mainLoop E post (mainLoop E pre ent).1).1,
        (mainLoop E pre ent).2 ++ (mainLoop E post (mainLoop E pre ent).1).2) := by
  induction pre generalizing ent with
  | nil => simp [mainLoop]
  | cons keys rest ih =>
    rw [List.cons_append, mainLoop_cons, mainLoop_cons, ih]
    simp [List.append_assoc]

theorem loopBody_count_updateEntity (E : EntityModule) (keys : KeyboardStatus) (ent : TEntity) :
    (loopBody E keys ent).2.countP isUpdateEntity = 1 := by
  rw [loopBody_calls]
  rcases updateUser_calls_cases E keys ent with h | h <;>
    rw [h] <;> simp [List.countP_cons, isUpdateEntity]

/-- C5: in every iteration of the main loop `updateEntity` is called exactly once, on
the entity that this iteration's `updateUser` returned and after the calls of
`updateUser`; over `n` iterations it is called exactly `n` times. -/
theorem updateEntity_once_per_iteration (E : EntityModule) (snapshots : List KeyboardStatus)
    (persea : TEntity) (keys : KeyboardStatus) (ent : TEntity) :
    (mainLoop E snapshots persea).2.countP isUpdateEntity = snapshots.length ∧
      (loopBody E keys ent).2.countP isUpdateEntity = 1 ∧
      (updateUser E keys ent).2.countP isUpdateEntity = 0 ∧
      (loopBody E keys ent).2 =
        (updateUser E keys ent).2 ++
          [Call.cpct_waitVSYNC, Call.updateEntity (updateUser E keys ent).1,
            Call.drawEntity (E.updateEntity (updateUser E keys ent).1)] ∧
      (loopBody E keys ent).1 = E.drawEntity (E.updateEntity (updateUser E keys ent).1) := by
  refine ⟨?_, loopBody_count_updateEntity E keys ent, ?_, loopBody_calls E keys ent,
    loopBody_entity E keys ent⟩
  · induction snapshots generalizing persea with
    | nil => rfl
    | cons k rest ih =>
      rw [mainLoop_cons]
      simp only [List.countP_append, List.length_cons]
      rw [ih, loopBody_count_updateEntity]
      omega
  · rcases updateUser_calls_cases E keys ent with h | h <;>
      rw [h] <;> simp [List.countP_cons, isUpdateEntity]

/-- C6: in every iteration of the main loop (the iteration that follows any number of
earlier ones) the one `drawEntity` call receives the entity produced by this
iteration's `updateEntity` applied to the entity produced by this iteration's
`updateUser`, and it is the last call of the iteration. -/
theorem drawEntity_sees_updated_state (E : EntityModule) (pre post : List KeyboardStatus)
    (keys : KeyboardStatus) (persea : TEntity) :
    (mainLoop E (pre ++ keys :: post) persea).2 =
        (mainLoop E pre persea).2 ++
          ((updateUser E keys (mainLoop E pre persea).1).2 ++
            [Call.cpct_waitVSYNC,
              Call.updateEntity (updateUser E keys (mainLoop E pre persea).1).1,
              Call.drawEntity
                (E.updateEntity (updateUser E keys (mainLoop E pre persea).1).1)]) ++
          (mainLoop E post (loopBody E keys (mainLoop E pre persea).1).1).2 ∧
      (loopBody E keys (mainLoop E pre persea).1).2.filter isDrawEntity =
        [Call.drawEntity (E.updateEntity (updateUser E keys (mainLoop E pre persea).1).1)] := by
  constructor
  · rw [mainLoop_append, mainLoop_cons, loopBody_calls]
    simp [List.append_assoc]
  · rw [loopBody_calls]
    rcases updateUser_calls_cases E keys (mainLoop E pre persea).1 with h | h <;>
      rw [h] <;> simp [List.filter, isDrawEntity]

/-- C7, as stated, fails: in the iteration run with Space down from the initial entity
the calls are scan, `setAnimation`, wait, `updateEntity`, `drawEntity`; the
vertical-sync wait stands between request application and the advance. -/
theorem waitVSYNC_between_phases :
    (loopBody (Entities.implementation Entities.sampleDefinition 0 0) (pressed [Key_Space])
        (Entities.getPersea 0 0)).2 =
      [Call.cpct_scanKeyboardFast, Call.setAnimation es_hit, Call.cpct_waitVSYNC,
        Call.updateEntity { x := 0, y := 0, currentAnimation := es_hit, frameIndex := 0 },
        Call.drawEntity { x := 0, y := 0, currentAnimation := es_hit, frameIndex := 1 }] ∧
      suspendedBetweenPhases
        (loopBody (Entities.implementation Entities.sampleDefinition 0 0) (pressed [Key_Space])
          (Entities.getPersea 0 0)).2 := by
  have hcalls : (loopBody (Entities.implementation Entities.sampleDefinition 0 0)
      (pressed [Key_Space]) (Entities.getPersea 0 0)).2 =
      [Call.cpct_scanKeyboardFast, Call.setAnimation es_hit, Call.cpct_waitVSYNC,
        Call.updateEntity { x := 0, y := 0, currentAnimation := es_hit, frameIndex := 0 },
        Call.drawEntity { x := 0, y := 0, currentAnimation := es_hit, frameIndex := 1 }] := by
    decide
  refine ⟨hcalls, ?_⟩
  rw [hcalls]
  exact ⟨[Call.cpct_scanKeyboardFast, Call.setAnimation es_hit],
    [Call.updateEntity { x := 0, y := 0, currentAnimation := es_hit, frameIndex := 0 },
      Call.drawEntity { x := 0, y := 0, currentAnimation := es_hit, frameIndex := 1 }],
    rfl, ⟨Call.cpct_scanKeyboardFast, by simp, rfl⟩,
    ⟨Call.drawEntity { x := 0, y := 0, currentAnimation := es_hit, frameIndex := 1 },
      by simp, rfl⟩⟩

/-- C7, amended: every iteration of the main loop waits for the vertical sync exactly
once, after the calls of `updateUser` (classify, apply request) and before
`updateEntity` and `drawEntity`; `updateUser` itself never waits, nothing stands
between `updateEntity` and `drawEntity`, and the next iteration follows the
`drawEntity` call directly. -/
theorem waitVSYNC_once_after_updateUser (E : EntityModule) (keys : KeyboardStatus)
    (rest : List KeyboardStatus) (ent : TEntity) :
    (loopBody E keys ent).2 =
        (updateUser E keys ent).2 ++
          Call.cpct_waitVSYNC ::
            [Call.updateEntity (updateUser E keys ent).1,
              Call.drawEntity (E.updateEntity (updateUser E keys ent).1)] ∧
      Call.cpct_waitVSYNC ∉ (updateUser E keys ent).2 ∧
      (loopBody E keys ent).2.countP isWaitVSYNC = 1 ∧
      (mainLoop E (keys :: rest) ent).2 =
        (loopBody E keys ent).2 ++ (mainLoop E rest (loopBody E keys ent).1).2 := by
  refine ⟨loopBody_calls E keys ent, ?_, ?_, ?_⟩
  · rcases updateUser_calls_cases E keys ent with h | h <;> rw [h] <;> simp
  · rw [loopBody_calls]
    rcases updateUser_calls_cases E keys ent with h | h <;>
      rw [h] <;> simp [List.countP_cons, isWaitVSYNC]
  · rw [mainLoop_cons]

/-! ## The frame index -/

/-- C8: frame-index bound.  When every variant has at least one frame, after any
number of iterations of the main loop from the initial entity, under any sequence
of keyboard snapshots, the frame index is inside the frame sequence of the
current animation; so is the entity that the next `updateUser` returns, and the
entity that the next `updateEntity` returns. -/
theorem frameIndex_in_bounds (A : AnimationDefinition) (x y : Int)
    (snapshots : List KeyboardStatus) (keys : KeyboardStatus)
    (hA : ∀ s, 0 < A.frameCount s) :
    (0 ≤ (main (Entities.implementation A x y) snapshots).1.frameIndex ∧
      (main (Entities.implementation A x y) snapshots).1.frameIndex <
        A.frameCount (main (Entities.implementation A x y) snapshots).1.currentAnimation) ∧
      (updateUser (Entities.implementation A x y) keys
          (main (Entities.implementation A x y) snapshots).1).1.frameIndex <
        A.frameCount (updateUser (Entities.implementation A x y) keys
          (main (Entities.implementation A x y) snapshots).1).1.currentAnimation ∧
      (Entities.updateEntity A (updateUser (Entities.implementation A x y) keys
          (main (Entities.implementation A x y) snapshots).1).1).frameIndex <
        A.frameCount (Entities.updateEntity A (updateUser (Entities.implementation A x y) keys
          (main (Entities.implementation A x y) snapshots).1).1).currentAnimation := by
  have hinit : frameInBounds A (Entities.getPersea x y) := hA es_stop
  have hmain : frameInBounds A (main (Entities.implementation A x y) snapshots).1 :=
    mainLoop_inBounds A x y hA snapshots _ hinit
  have huser := updateUser_inBounds A x y hA keys _ hmain
  exact ⟨⟨Nat.zero_le _, hmain⟩, huser, updateEntity_inBounds A hA _ huser⟩

/-- Witness for C8: four iterations with the sample animation data (hit, then nothing
twice so that the one-shot completes, then CursorLeft). -/
theorem frameIndex_in_bounds_witness :
    (main (Entities.implementation Entities.sampleDefinition 10 20)
        [pressed [Key_Space], pressed [], pressed [], pressed [Key_CursorLeft]]).1.frameIndex <
      Entities.sampleDefinition.frameCount
        (main (Entities.implementation Entities.sampleDefinition 10 20)
          [pressed [Key_Space], pressed [], pressed [],
            pressed [Key_CursorLeft]]).1.currentAnimation :=
  (frameIndex_in_bounds Entities.sampleDefinition 10 20
    [pressed [Key_Space], pressed [], pressed [], pressed [Key_CursorLeft]] (pressed [])
    (by intro s; cases s <;> decide)).1.2

end Animation
